import Mathlib

/-!
Verification of the SoloCraft data model and its progression/punishment
engine (`data_models.py`, `storage_manager.py`, with the guarded flows of
`solocraft_gui.py`).  Python strings are modelled by `String`, Python
integers by `Int` (arbitrary precision, possibly negative), Python `None`
by `Option`, and Python floor division `//` by `Int.fdiv`.
-/

namespace SoloCraft

/-- `startsWithChars s pat` is true when `pat` is an initial segment of `s`.
Models the Python `str.startswith` on explicit character lists. -/
def startsWithChars : List Char → List Char → Bool
  | _, [] => true
  | [], _ :: _ => false
  | a :: as, b :: bs => a == b && startsWithChars as bs

/-- `hasSubChars s pat` is true when `pat` occurs contiguously inside `s`.
Models the Python substring test `pat in s` on character lists. -/
def hasSubChars : List Char → List Char → Bool
  | [], pat => startsWithChars [] pat
  | a :: as, pat => startsWithChars (a :: as) pat || hasSubChars as pat

/-- The Python substring test `pat in s` on strings. -/
def containsSub (s pat : String) : Bool :=
  hasSubChars s.toList pat.toList

/-- The Python `str.lower()`, character by character. -/
def pyLower (s : String) : String :=
  ⟨s.toList.map Char.toLower⟩

/-- Value of a run of decimal digits, as the Python `int()` conversion computes it. -/
def digitsToNat (ds : List Char) : Nat :=
  ds.foldl (fun n c => n * 10 + (c.toNat - 48)) 0

/-- Model of the regex search for the pattern `(\d+)\s*xp`: scan left to right for the first
position where a maximal run of digits, followed by optional whitespace, is
followed by the literal characters `xp`; return the value of the digit run.
(The quantifiers `\d+` and `\s*` are greedy and no backtracking can help,
because a digit is neither whitespace nor `x`.) -/
def xpSearch : List Char → Option Nat
  | [] => none
  | c :: rest =>
    if c.isDigit then
      let digits := (c :: rest).takeWhile Char.isDigit
      let afterWs := ((c :: rest).dropWhile Char.isDigit).dropWhile Char.isWhitespace
      if startsWithChars afterWs ['x', 'p'] then
        some (digitsToNat digits)
      else xpSearch rest
    else xpSearch rest

/-- `UserProgress` from `data_models.py` (field-for-field). -/
structure UserProgress where
  xp : Int
  help_tickets : Int
  tutorial_tickets : Int
  last_ticket_reset : String
  level : Int
  badges : List String
deriving DecidableEq, Repr

/-- `UserProgress.__init__`: the fresh singleton record, with `now` standing
for `datetime.now().isoformat()`. -/
def UserProgress.init (now : String) : UserProgress :=
  { xp := 0, help_tickets := 3, tutorial_tickets := 2,
    last_ticket_reset := now, level := 1, badges := [] }

/-- `UserProgress.add_xp`: add the amount, recompute `(xp // 100) + 1` and
take it only as an increase; the Bool reports whether a level-up occurred. -/
def UserProgress.add_xp (self : UserProgress) (amount : Int) : UserProgress × Bool :=
  let xp2 := self.xp + amount
  let new_level := xp2.fdiv 100 + 1
  if self.level < new_level then
    ({ self with xp := xp2, level := new_level }, true)
  else
    ({ self with xp := xp2 }, false)

/-- The `xp_loss` computation of `apply_punishment` (lines 147-149): the
integer captured by the regex search for `(\d+)\s*xp` in `pl`, defaulting to 10. -/
def xpLossOf (pl : String) : Int :=
  match xpSearch pl.toList with
  | some n => (n : Int)
  | none => 10

/-- The XP-loss block of `UserProgress.apply_punishment` (lines 145-160):
`pl` is the lowercased punishment text.  Returns the updated state and the
effect strings this block appends. -/
def UserProgress.xpRule (self : UserProgress) (pl : String) : UserProgress × List String :=
  if containsSub pl "xp" = true ∨ containsSub pl "experience" = true then
    let xp_loss : Int := xpLossOf pl
    let old_xp := self.xp
    let newXp := max 0 (self.xp - xp_loss)
    let lost := old_xp - newXp
    let new_level := max 1 (newXp.fdiv 100 + 1)
    if new_level < self.level then
      ({ self with xp := newXp, level := new_level },
       [s!"Lost {lost} XP and dropped to Level {new_level}"])
    else
      ({ self with xp := newXp }, [s!"Lost {lost} XP"])
  else (self, [])

/-- First step of the ticket block (lines 165-168): a specific help-ticket
loss when "help" is mentioned and a help ticket is available.  The `Nat`
component is the running `tickets_lost` counter. -/
def ticketHelpStep (self : UserProgress) (pl : String) : UserProgress × List String × Nat :=
  if containsSub pl "help" = true ∧ 0 < self.help_tickets then
    ({ self with help_tickets := self.help_tickets - 1 }, ["Lost 1 help ticket"], 1)
  else (self, [], 0)

/-- Second step of the ticket block (lines 169-172): a specific
tutorial-ticket loss when "tutorial" is mentioned and one is available. -/
def ticketTutorialStep (self : UserProgress) (pl : String) (effects : List String)
    (tickets_lost : Nat) : UserProgress × List String × Nat :=
  if containsSub pl "tutorial" = true ∧ 0 < self.tutorial_tickets then
    ({ self with tutorial_tickets := self.tutorial_tickets - 1 },
     effects ++ ["Lost 1 tutorial ticket"], tickets_lost + 1)
  else (self, effects, tickets_lost)

/-- Fallback step of the ticket block (lines 174-181): when no specific loss
happened and some ticket remains, lose a help ticket first, else a tutorial
ticket. -/
def ticketFallbackStep (self : UserProgress) (effects : List String)
    (tickets_lost : Nat) : UserProgress × List String :=
  if tickets_lost = 0 ∧ (0 < self.help_tickets ∨ 0 < self.tutorial_tickets) then
    if 0 < self.help_tickets then
      ({ self with help_tickets := self.help_tickets - 1 }, effects ++ ["Lost 1 help ticket"])
    else if 0 < self.tutorial_tickets then
      ({ self with tutorial_tickets := self.tutorial_tickets - 1 },
       effects ++ ["Lost 1 tutorial ticket"])
    else (self, effects)
  else (self, effects)

/-- The ticket-loss block of `UserProgress.apply_punishment` (lines 163-181). -/
def UserProgress.ticketRule (self : UserProgress) (pl : String) : UserProgress × List String :=
  if containsSub pl "ticket" = true then
    let a := ticketHelpStep self pl
    let b := ticketTutorialStep a.1 pl a.2.1 a.2.2
    ticketFallbackStep b.1 b.2.1 b.2.2
  else (self, [])

/-- `UserProgress.apply_punishment` (lines 134-189).  The argument is
`Option String` because the GUI passes `mission.punishment`, which may be
`None`; `if not punishment_text` is true for both `None` and `""`. -/
def UserProgress.apply_punishment (self : UserProgress) (punishment_text : Option String) :
    UserProgress × List String :=
  match punishment_text with
  | none => (self, [])
  | some t =>
    if t = "" then (self, [])
    else
      let pl := pyLower t
      let r1 := self.xpRule pl
      let r2 := r1.1.ticketRule pl
      let effects := r1.2 ++ r2.2
      if effects = [] then
        let old_xp := r2.1.xp
        let newXp := max 0 (r2.1.xp - 5)
        let lost := old_xp - newXp
        ({ r2.1 with xp := newXp }, [s!"Lost {lost} XP (default punishment)"])
      else (r2.1, effects)

/-- `UserProgress.use_help_ticket` (lines 191-195). -/
def UserProgress.use_help_ticket (self : UserProgress) : UserProgress × Bool :=
  if 0 < self.help_tickets then
    ({ self with help_tickets := self.help_tickets - 1 }, true)
  else (self, false)

/-- `UserProgress.use_tutorial_ticket` (lines 197-201). -/
def UserProgress.use_tutorial_ticket (self : UserProgress) : UserProgress × Bool :=
  if 0 < self.tutorial_tickets then
    ({ self with tutorial_tickets := self.tutorial_tickets - 1 }, true)
  else (self, false)

/-- `UserProgress.reset_tickets` (lines 207-210). -/
def UserProgress.reset_tickets (self : UserProgress) (now : String) : UserProgress :=
  { self with help_tickets := 3, tutorial_tickets := 2, last_ticket_reset := now }

/-- `UserProgress.to_dict` target: the persisted JSON object, one `Option`
per key so that an absent key is representable (`none` = key absent). -/
structure UserProgressDict where
  xp : Option Int
  help_tickets : Option Int
  tutorial_tickets : Option Int
  last_ticket_reset : Option String
  level : Option Int
  badges : Option (List String)
deriving DecidableEq, Repr

/-- `UserProgress.to_dict` (lines 212-220): every key present. -/
def UserProgress.to_dict (self : UserProgress) : UserProgressDict :=
  { xp := some self.xp, help_tickets := some self.help_tickets,
    tutorial_tickets := some self.tutorial_tickets,
    last_ticket_reset := some self.last_ticket_reset,
    level := some self.level, badges := some self.badges }

/-- `UserProgress.from_dict` (lines 222-231): every field is read with
`data.get(key, default)`; `now` stands for the `datetime.now().isoformat()`
default of `last_ticket_reset`. -/
def UserProgress.from_dict (data : UserProgressDict) (now : String) : UserProgress :=
  { xp := data.xp.getD 0,
    help_tickets := data.help_tickets.getD 3,
    tutorial_tickets := data.tutorial_tickets.getD 2,
    last_ticket_reset := data.last_ticket_reset.getD now,
    level := data.level.getD 1,
    badges := data.badges.getD [] }

/-- `Mission` from `data_models.py` (field-for-field; `difficulty` is stored
as the string the caller passes, `rewards` is the XP integer). -/
structure Mission where
  id : String
  title : String
  description : String
  difficulty : String
  constraints : String
  rewards : Int
  punishment : Option String
  created_at : String
  completed : Bool
  completed_at : Option String
  failed : Bool
  failed_at : Option String
deriving DecidableEq, Repr

/-- `Mission.complete_mission` (lines 34-36): unconditional at the entity
level; `now` stands for `datetime.now().isoformat()`. -/
def Mission.complete_mission (self : Mission) (now : String) : Mission :=
  { self with completed := true, completed_at := some now }

/-- `Mission.fail_mission` (lines 38-40). -/
def Mission.fail_mission (self : Mission) (now : String) : Mission :=
  { self with failed := true, failed_at := some now }

/-- The persisted JSON object of a `Mission`: outer `Option` = key present,
inner `Option` (where present) = JSON value may be `null`. -/
structure MissionDict where
  id : Option String
  title : Option String
  description : Option String
  difficulty : Option String
  constraints : Option String
  rewards : Option Int
  punishment : Option (Option String)
  created_at : Option String
  completed : Option Bool
  completed_at : Option (Option String)
  failed : Option Bool
  failed_at : Option (Option String)
deriving DecidableEq, Repr

/-- `Mission.to_dict` (lines 42-56): every key present. -/
def Mission.to_dict (self : Mission) : MissionDict :=
  { id := some self.id, title := some self.title, description := some self.description,
    difficulty := some self.difficulty, constraints := some self.constraints,
    rewards := some self.rewards, punishment := some self.punishment,
    created_at := some self.created_at, completed := some self.completed,
    completed_at := some self.completed_at, failed := some self.failed,
    failed_at := some self.failed_at }

/-- `Mission.from_dict` (lines 58-74).  `data[key]` raises `KeyError` on an
absent key, modelled by returning `none`; `data.get(key)` defaults to
`None`; `data.get("failed", False)` defaults to `False`.  The constructor
computes `self.id = mission_id or str(uuid.uuid4())`, so a falsy (empty)
stored id is replaced by a fresh uuid, modelled by the `fresh` argument;
the fresh `created_at` timestamp set by the constructor is immediately overwritten
by `data["created_at"]`, so no `now` argument is needed. -/
def Mission.from_dict (data : MissionDict) (fresh : String) : Option Mission :=
  match data.title, data.description, data.difficulty, data.constraints,
        data.rewards, data.id, data.created_at, data.completed with
  | some title, some description, some difficulty, some constraints,
    some rewards, some mid, some created_at, some completed =>
    some { id := if mid = "" then fresh else mid,
           title := title, description := description, difficulty := difficulty,
           constraints := constraints, rewards := rewards,
           punishment := data.punishment.getD none,
           created_at := created_at, completed := completed,
           completed_at := data.completed_at.getD none,
           failed := data.failed.getD false,
           failed_at := data.failed_at.getD none }
  | _, _, _, _, _, _, _, _ => none

/-- `InsightDebt` from `data_models.py` (field-for-field). -/
structure InsightDebt where
  id : String
  ticket_type : String
  used_for : String
  created_at : String
  cleared : Bool
  insight_entry : Option String
  cleared_at : Option String
deriving DecidableEq, Repr

/-- `InsightDebt.clear_debt` (lines 87-90): unconditional at the entity
level. -/
def InsightDebt.clear_debt (self : InsightDebt) (insight_entry : String)
    (now : String) : InsightDebt :=
  { self with
    cleared := true, insight_entry := some insight_entry,
    cleared_at := some now }

/-- The persisted JSON object of an `InsightDebt`. -/
structure InsightDebtDict where
  id : Option String
  ticket_type : Option String
  used_for : Option String
  created_at : Option String
  cleared : Option Bool
  insight_entry : Option (Option String)
  cleared_at : Option (Option String)
deriving DecidableEq, Repr

/-- `InsightDebt.to_dict` (lines 92-101). -/
def InsightDebt.to_dict (self : InsightDebt) : InsightDebtDict :=
  { id := some self.id, ticket_type := some self.ticket_type,
    used_for := some self.used_for, created_at := some self.created_at,
    cleared := some self.cleared, insight_entry := some self.insight_entry,
    cleared_at := some self.cleared_at }

/-- `InsightDebt.from_dict` (lines 103-114); same conventions as
`Mission.from_dict` (required keys `ticket_type`, `used_for`, `id`,
`created_at`, `cleared`; `debt_id or str(uuid.uuid4())` truthiness). -/
def InsightDebt.from_dict (data : InsightDebtDict) (fresh : String) : Option InsightDebt :=
  match data.ticket_type, data.used_for, data.id, data.created_at, data.cleared with
  | some ticket_type, some used_for, some did, some created_at, some cleared =>
    some { id := if did = "" then fresh else did,
           ticket_type := ticket_type, used_for := used_for,
           created_at := created_at, cleared := cleared,
           insight_entry := data.insight_entry.getD none,
           cleared_at := data.cleared_at.getD none }
  | _, _, _, _, _ => none

/-- State-conflict error of the spec error taxonomy (§7 (a)). -/
inductive InvalidStateError where
  | alreadyCompletedOrFailed
deriving DecidableEq, Repr

/-- Validation error of the spec error taxonomy (§7 (b)). -/
inductive ValidationError where
  | emptyInsight
deriving DecidableEq, Repr

/-- The guarded complete flow of `SoloCraftGUI.complete_mission`
(`solocraft_gui.py` lines 371-387): the mission is completed only when
`not mission.completed and not mission.failed`; otherwise the GUI reports
"already completed" and mutates nothing. -/
def completeMissionGuarded (m : Mission) (now : String) :
    Except InvalidStateError Mission :=
  if m.completed = false ∧ m.failed = false then
    .ok (m.complete_mission now)
  else .error .alreadyCompletedOrFailed

/-- The Python `str.strip()`: drop leading and trailing whitespace. -/
def pyStrip (s : String) : String :=
  ⟨((s.toList.dropWhile Char.isWhitespace).reverse.dropWhile Char.isWhitespace).reverse⟩

/-- The guarded insight-write flow of `InsightWriteDialog.save_insight` plus
`SoloCraftGUI.write_insight` (`solocraft_gui.py` lines 484-500, 697-714):
the widget text is stripped; an empty result is rejected before any
mutation; otherwise `clear_debt` stores the stripped text. -/
def saveInsightGuarded (d : InsightDebt) (rawText now : String) :
    Except ValidationError InsightDebt :=
  let insight_text := pyStrip rawText
  if insight_text = "" then .error .emptyInsight
  else .ok (d.clear_debt insight_text now)

/-- On-disk content of the missions collection file as `load_missions` can
observe it: missing file, malformed JSON, or a well-formed JSON array of
objects. -/
inductive FileContent where
  | missing
  | malformed
  | parsed (records : List MissionDict)
deriving DecidableEq, Repr

/-- Error that `StorageManager.load_missions` lets escape to its caller
(a `KeyError` raised by `Mission.from_dict` on a record that lacks a
required key; only `FileNotFoundError` and `json.JSONDecodeError` are
caught). -/
inductive LoadError where
  | keyError
deriving DecidableEq, Repr

/-- `StorageManager.load_missions` (`storage_manager.py` lines 56-63):
missing file and malformed JSON yield the empty collection; a well-formed
array is mapped through `Mission.from_dict`, whose `KeyError` propagates.
`fresh` stands for the uuid supply used for falsy stored ids. -/
def load_missions (content : FileContent) (fresh : String) :
    Except LoadError (List Mission) :=
  match content with
  | .missing => .ok []
  | .malformed => .ok []
  | .parsed records =>
    match records.mapM (fun r => Mission.from_dict r fresh) with
    | some missions => .ok missions
    | none => .error .keyError

/-- On-disk content of the single-object user-progress file. -/
inductive ProgressFileContent where
  | missing
  | malformed
  | parsed (record : UserProgressDict)
deriving DecidableEq, Repr

/-- `StorageManager.load_user_progress` (`storage_manager.py` lines
103-110): missing file and malformed JSON yield a fresh `UserProgress()`;
a well-formed object goes through `UserProgress.from_dict`, which never
raises (every field is read with `.get`). -/
def load_user_progress (content : ProgressFileContent) (now : String) : UserProgress :=
  match content with
  | .missing => UserProgress.init now
  | .malformed => UserProgress.init now
  | .parsed record => UserProgress.from_dict record now

/-- The implicit state invariant of `UserProgress`: xp and ticket counters
are non-negative and the level is at least 1. -/
def GoodState (p : UserProgress) : Prop :=
  0 ≤ p.xp ∧ 0 ≤ p.help_tickets ∧ 0 ≤ p.tutorial_tickets ∧ 1 ≤ p.level

/-! Helper lemmas. -/

theorem fdiv_hundred_nonneg (a : Int) (h : 0 ≤ a) : 0 ≤ a.fdiv 100 := by
  rw [Int.fdiv_eq_ediv a (by norm_num)]
  exact Int.ediv_nonneg h (by norm_num)

theorem xpRule_not_triggered (p : UserProgress) (pl : String)
    (h1 : containsSub pl "xp" = false) (h2 : containsSub pl "experience" = false) :
    p.xpRule pl = (p, []) := by
  simp [UserProgress.xpRule, h1, h2]

theorem ticketRule_not_triggered (p : UserProgress) (pl : String)
    (h : containsSub pl "ticket" = false) :
    p.ticketRule pl = (p, []) := by
  simp [UserProgress.ticketRule, h]

/-- The XP block, when triggered, floors xp at `0`, lowers the level only
when the recomputed level is strictly lower, leaves the ticket counters
alone, and always records exactly one effect. -/
theorem xpRule_triggered (p : UserProgress) (pl : String)
    (h : containsSub pl "xp" = true ∨ containsSub pl "experience" = true) :
    (p.xpRule pl).1.xp = max 0 (p.xp - xpLossOf pl) ∧
    (p.xpRule pl).1.level =
      (if (max 0 (p.xp - xpLossOf pl)).fdiv 100 + 1 < p.level
       then (max 0 (p.xp - xpLossOf pl)).fdiv 100 + 1 else p.level) ∧
    (p.xpRule pl).1.help_tickets = p.help_tickets ∧
    (p.xpRule pl).1.tutorial_tickets = p.tutorial_tickets ∧
    (p.xpRule pl).2 ≠ [] := by
  have h0 : (0 : Int) ≤ max 0 (p.xp - xpLossOf pl) := le_max_left _ _
  have h1 : (1 : Int) ≤ (max 0 (p.xp - xpLossOf pl)).fdiv 100 + 1 := by
    have := fdiv_hundred_nonneg _ h0
    linarith
  have hmax : max 1 ((max 0 (p.xp - xpLossOf pl)).fdiv 100 + 1) =
      (max 0 (p.xp - xpLossOf pl)).fdiv 100 + 1 := max_eq_right h1
  unfold UserProgress.xpRule
  rw [if_pos h]
  by_cases hlt : (max 0 (p.xp - xpLossOf pl)).fdiv 100 + 1 < p.level
  · simp [hmax, hlt]
  · simp [hmax, hlt]

/-- The ticket block never changes `xp` or `level`. -/
theorem ticketRule_preserves_xp_level (q : UserProgress) (pl : String) :
    (q.ticketRule pl).1.xp = q.xp ∧ (q.ticketRule pl).1.level = q.level := by
  by_cases hT : containsSub pl "ticket" = true
  · by_cases hH : containsSub pl "help" = true <;>
    by_cases hhp : (0 : Int) < q.help_tickets <;>
    by_cases hTu : containsSub pl "tutorial" = true <;>
    by_cases htp : (0 : Int) < q.tutorial_tickets <;>
    simp [UserProgress.ticketRule, ticketHelpStep, ticketTutorialStep,
      ticketFallbackStep, hT, hH, hhp, hTu, htp]
  · rw [ticketRule_not_triggered q pl (by simpa using hT)]
    exact ⟨rfl, rfl⟩

/-- The XP block never changes the ticket counters. -/
theorem xpRule_preserves_tickets (p : UserProgress) (pl : String) :
    (p.xpRule pl).1.help_tickets = p.help_tickets ∧
    (p.xpRule pl).1.tutorial_tickets = p.tutorial_tickets := by
  simp only [UserProgress.xpRule]
  split_ifs <;> exact ⟨rfl, rfl⟩

/-- Exact behavior of the ticket block on the counters and the recorded
effects, by the four atomic conditions of the code. -/
theorem ticketRule_characterization (q : UserProgress) (pl : String)
    (hT : containsSub pl "ticket" = true) :
    (q.ticketRule pl).1.help_tickets =
      (if (containsSub pl "help" = true ∧ 0 < q.help_tickets) ∨
          (¬(containsSub pl "help" = true ∧ 0 < q.help_tickets) ∧
           ¬(containsSub pl "tutorial" = true ∧ 0 < q.tutorial_tickets) ∧
           0 < q.help_tickets)
       then q.help_tickets - 1 else q.help_tickets) ∧
    (q.ticketRule pl).1.tutorial_tickets =
      (if (containsSub pl "tutorial" = true ∧ 0 < q.tutorial_tickets) ∨
          (¬(containsSub pl "help" = true ∧ 0 < q.help_tickets) ∧
           ¬(containsSub pl "tutorial" = true ∧ 0 < q.tutorial_tickets) ∧
           ¬(0 < q.help_tickets) ∧ 0 < q.tutorial_tickets)
       then q.tutorial_tickets - 1 else q.tutorial_tickets) ∧
    (q.ticketRule pl).2 =
      (if containsSub pl "help" = true ∧ 0 < q.help_tickets
       then ["Lost 1 help ticket"] else []) ++
      (if containsSub pl "tutorial" = true ∧ 0 < q.tutorial_tickets
       then ["Lost 1 tutorial ticket"] else []) ++
      (if ¬(containsSub pl "help" = true ∧ 0 < q.help_tickets) ∧
          ¬(containsSub pl "tutorial" = true ∧ 0 < q.tutorial_tickets)
       then (if 0 < q.help_tickets then ["Lost 1 help ticket"]
             else if 0 < q.tutorial_tickets then ["Lost 1 tutorial ticket"]
             else [])
       else []) := by
  by_cases hH : containsSub pl "help" = true <;>
  by_cases hhp : (0 : Int) < q.help_tickets <;>
  by_cases hTu : containsSub pl "tutorial" = true <;>
  by_cases htp : (0 : Int) < q.tutorial_tickets <;>
  simp [UserProgress.ticketRule, ticketHelpStep, ticketTutorialStep,
    ticketFallbackStep, hT, hH, hhp, hTu, htp]

/-- The ticket counters of `apply_punishment` on non-empty text are those
produced by the ticket block (the XP and default blocks touch only
`xp`/`level`). -/
theorem apply_punishment_tickets (p : UserProgress) (t : String) (hne : t ≠ "") :
    (p.apply_punishment (some t)).1.help_tickets =
      ((p.xpRule (pyLower t)).1.ticketRule (pyLower t)).1.help_tickets ∧
    (p.apply_punishment (some t)).1.tutorial_tickets =
      ((p.xpRule (pyLower t)).1.ticketRule (pyLower t)).1.tutorial_tickets := by
  simp only [UserProgress.apply_punishment]
  rw [if_neg hne]
  by_cases hnil : (p.xpRule (pyLower t)).2 ++
      ((p.xpRule (pyLower t)).1.ticketRule (pyLower t)).2 = []
  · rw [if_pos hnil]
    exact ⟨rfl, rfl⟩
  · rw [if_neg hnil]
    exact ⟨rfl, rfl⟩

/-- The XP block preserves the state invariant. -/
theorem xpRule_goodState (p : UserProgress) (pl : String) (hp : GoodState p) :
    GoodState (p.xpRule pl).1 := by
  obtain ⟨h1, h2, h3, h4⟩ := hp
  simp only [UserProgress.xpRule]
  split_ifs with hc hl
  · exact ⟨le_max_left _ _, h2, h3, le_max_left _ _⟩
  · exact ⟨le_max_left _ _, h2, h3, h4⟩
  · exact ⟨h1, h2, h3, h4⟩

/-- The ticket block preserves the state invariant. -/
theorem ticketRule_goodState (q : UserProgress) (pl : String) (hq : GoodState q) :
    GoodState (q.ticketRule pl).1 := by
  obtain ⟨h1, h2, h3, h4⟩ := hq
  by_cases hT : containsSub pl "ticket" = true
  · by_cases hH : containsSub pl "help" = true <;>
    by_cases hhp : (0 : Int) < q.help_tickets <;>
    by_cases htu : containsSub pl "tutorial" = true <;>
    by_cases htp : (0 : Int) < q.tutorial_tickets <;>
    simp [UserProgress.ticketRule, ticketHelpStep, ticketTutorialStep,
      ticketFallbackStep, GoodState, hT, hH, hhp, htu, htp] <;>
    omega
  · rw [ticketRule_not_triggered q pl (by simpa using hT)]
    exact ⟨h1, h2, h3, h4⟩

/-- `apply_punishment` preserves the state invariant for any text. -/
theorem apply_punishment_goodState (p : UserProgress) (pt : Option String)
    (hp : GoodState p) : GoodState (p.apply_punishment pt).1 := by
  match pt with
  | none => exact hp
  | some t =>
    by_cases hne : t = ""
    · subst hne
      simpa [UserProgress.apply_punishment] using hp
    · have hx := xpRule_goodState p (pyLower t) hp
      have ht := ticketRule_goodState (p.xpRule (pyLower t)).1 (pyLower t) hx
      simp only [UserProgress.apply_punishment]
      rw [if_neg hne]
      by_cases hnil : (p.xpRule (pyLower t)).2 ++
          ((p.xpRule (pyLower t)).1.ticketRule (pyLower t)).2 = []
      · rw [if_pos hnil]
        obtain ⟨g1, g2, g3, g4⟩ := ht
        exact ⟨le_max_left _ _, g2, g3, g4⟩
      · rw [if_neg hnil]
        exact ht

/-- Reduction of `apply_punishment` on non-empty text when some rule
recorded an effect: the default block is skipped. -/
theorem apply_punishment_some (p : UserProgress) (t : String) (hne : t ≠ "")
    (hx : (p.xpRule (pyLower t)).2 ≠ [] ∨
          ((p.xpRule (pyLower t)).1.ticketRule (pyLower t)).2 ≠ []) :
    p.apply_punishment (some t) =
      (((p.xpRule (pyLower t)).1.ticketRule (pyLower t)).1,
       (p.xpRule (pyLower t)).2 ++
         ((p.xpRule (pyLower t)).1.ticketRule (pyLower t)).2) := by
  have hnil : (p.xpRule (pyLower t)).2 ++
      ((p.xpRule (pyLower t)).1.ticketRule (pyLower t)).2 ≠ [] := by
    rcases hx with hx | hx <;> simp [List.append_eq_nil, hx]
  simp only [UserProgress.apply_punishment]
  rw [if_neg hne, if_neg hnil]

/-! Claims. -/

/-- Claim C1: for every state and every punishment text whose lowercased
form contains `"xp"` or `"experience"`, `apply_punishment` subtracts from
`xp` the integer immediately preceding an `"xp"` token in the text (10 if
no such pattern exists), flooring `xp` at 0, and lowers `level` to
`floor(new_xp/100) + 1` only when that value is strictly below the current
level; in particular `apply_punishment "lose 20 xp"` on a state with
`xp = 15` leaves `xp = 0` and records an effect reporting a loss of 15. -/
theorem C1_xp_punishment (p : UserProgress) (t : String)
    (h : containsSub (pyLower t) "xp" = true ∨
         containsSub (pyLower t) "experience" = true) :
    ((p.apply_punishment (some t)).1.xp = max 0 (p.xp - xpLossOf (pyLower t)) ∧
     (p.apply_punishment (some t)).1.level =
       (if (max 0 (p.xp - xpLossOf (pyLower t))).fdiv 100 + 1 < p.level
        then (max 0 (p.xp - xpLossOf (pyLower t))).fdiv 100 + 1
        else p.level)) ∧
    (⟨15, 3, 2, "t0", 1, []⟩ : UserProgress).apply_punishment
        (some "lose 20 xp") =
      (⟨0, 3, 2, "t0", 1, []⟩, ["Lost 15 XP"]) := by
  have hne : t ≠ "" := by
    rintro rfl
    revert h
    decide
  have hX := xpRule_triggered p (pyLower t) h
  have hred := apply_punishment_some p t hne (Or.inl hX.2.2.2.2)
  have hT := ticketRule_preserves_xp_level (p.xpRule (pyLower t)).1 (pyLower t)
  refine ⟨⟨?_, ?_⟩, by rfl⟩
  · rw [hred]
    exact hT.1.trans hX.1
  · rw [hred]
    exact hT.2.trans hX.2.1

/-- Witness for C1 at a concrete state and text. -/
theorem C1_xp_punishment_witness :
    ((⟨250, 3, 2, "t0", 3, []⟩ : UserProgress).apply_punishment
        (some "lose 120 XP")).1.xp = 130 ∧
    ((⟨250, 3, 2, "t0", 3, []⟩ : UserProgress).apply_punishment
        (some "lose 120 XP")).1.level = 2 := by
  have h := (C1_xp_punishment ⟨250, 3, 2, "t0", 3, []⟩ "lose 120 XP"
    (Or.inl (by decide))).1
  refine ⟨h.1.trans (by decide), h.2.trans (by decide)⟩

/-- Claim C2: `apply_punishment` on an empty or absent text returns an
empty effect list and changes nothing, while on any non-empty text that
triggers neither the XP rule nor the ticket rule it subtracts exactly 5 XP
(floored at 0) and returns exactly one default-effect entry, for every
state. -/
theorem C2_empty_vs_default (p : UserProgress) (t : String) (hne : t ≠ "")
    (hxp : containsSub (pyLower t) "xp" = false)
    (hexp : containsSub (pyLower t) "experience" = false)
    (htick : containsSub (pyLower t) "ticket" = false) :
    p.apply_punishment none = (p, []) ∧
    p.apply_punishment (some "") = (p, []) ∧
    p.apply_punishment (some t) =
      ({ p with xp := max 0 (p.xp - 5) },
       [s!"Lost {p.xp - max 0 (p.xp - 5)} XP (default punishment)"]) := by
  have hx := xpRule_not_triggered p (pyLower t) hxp hexp
  have ht := ticketRule_not_triggered p (pyLower t) htick
  refine ⟨rfl, rfl, ?_⟩
  simp only [UserProgress.apply_punishment]
  rw [if_neg hne, hx]
  simp only
  rw [ht]
  simp

/-- Witness for C2 at a concrete state and unmatched text. -/
theorem C2_empty_vs_default_witness :
    (⟨7, 3, 2, "t0", 1, []⟩ : UserProgress).apply_punishment
        (some "no recognizable penalty") =
      (⟨2, 3, 2, "t0", 1, []⟩, ["Lost 5 XP (default punishment)"]) := by
  have h := (C2_empty_vs_default ⟨7, 3, 2, "t0", 1, []⟩ "no recognizable penalty"
    (by decide) (by decide) (by decide) (by decide)).2.2
  exact h.trans (by decide)

/-- Counterexample to claim C8 as stated: a `Mission` whose stored id is
the empty string does not survive the round trip, because
`mission_id or str(uuid.uuid4())` treats the falsy id as absent and
generates a fresh uuid. -/
theorem C8_roundtrip_cex :
    Mission.from_dict
        (Mission.to_dict
          ⟨"", "T", "D", "Easy", "C", 10, none, "t0", false, none, false, none⟩)
        "fresh-uuid" ≠
      some ⟨"", "T", "D", "Easy", "C", 10, none, "t0", false, none, false, none⟩ := by
  decide

/-- Claim C8 as amended: for every `Mission` and `InsightDebt` with a
non-empty id (as every constructed one has, ids defaulting to UUIDs) and
every `UserProgress`, serializing with `to_dict` and deserializing with
`from_dict` reproduces identical field values; absent optional fields
default as documented (absent `failed` is false, absent ticket counts are
3 help and 2 tutorial). -/
theorem C8_roundtrip :
    (∀ (m : Mission) (fresh : String), m.id ≠ "" →
      Mission.from_dict m.to_dict fresh = some m) ∧
    (∀ (d : InsightDebt) (fresh : String), d.id ≠ "" →
      InsightDebt.from_dict d.to_dict fresh = some d) ∧
    (∀ (p : UserProgress) (now : String),
      UserProgress.from_dict p.to_dict now = p) ∧
    (∀ now : String,
      UserProgress.from_dict ⟨none, none, none, none, none, none⟩ now =
        UserProgress.init now) ∧
    Mission.from_dict
        ⟨some "m1", some "T", some "D", some "Easy", some "C", some 10,
         none, some "t0", some false, none, none, none⟩ "u" =
      some ⟨"m1", "T", "D", "Easy", "C", 10, none, "t0", false, none,
            false, none⟩ := by
  refine ⟨?_, ?_, fun p now => rfl, fun now => rfl, by decide⟩
  · intro m fresh h
    simp only [Mission.to_dict, Mission.from_dict, Option.getD_some]
    rw [if_neg h]
  · intro d fresh h
    simp only [InsightDebt.to_dict, InsightDebt.from_dict, Option.getD_some]
    rw [if_neg h]

/-- Witness for C8 at concrete entities. -/
theorem C8_roundtrip_witness :
    Mission.from_dict
        (Mission.to_dict
          ⟨"m1", "T", "D", "Easy", "C", 10, none, "t0", false, none, false, none⟩)
        "u" =
      some ⟨"m1", "T", "D", "Easy", "C", 10, none, "t0", false, none, false, none⟩ ∧
    InsightDebt.from_dict
        (InsightDebt.to_dict ⟨"d1", "Help", "api", "t0", false, none, none⟩) "u" =
      some ⟨"d1", "Help", "api", "t0", false, none, none⟩ := by
  exact ⟨C8_roundtrip.1 _ "u" (by decide), C8_roundtrip.2.1 _ "u" (by decide)⟩

/-- Counterexample to claim C9 as stated: on a well-formed JSON array whose
record lacks the required keys, `load_missions` does raise to the caller
(the `KeyError` from `Mission.from_dict` is not caught), so "never raises
an error to the caller" fails. -/
theorem C9_load_cex :
    load_missions
        (.parsed [⟨none, none, none, none, none, none, none, none, none,
                   none, none, none⟩]) "u" =
      .error .keyError := by
  rfl

/-- Claim C9 as amended: `load()` returns the empty collection when the
file is missing or its JSON is malformed, and loading user progress on a
missing or malformed file yields a fresh `UserProgress` with the starter
ticket counts; however, a well-formed JSON record lacking a required field
makes `load_missions` propagate a `KeyError` to the caller. -/
theorem C9_load_swallows_errors (fresh now : String) :
    load_missions .missing fresh = .ok [] ∧
    load_missions .malformed fresh = .ok [] ∧
    load_user_progress .missing now = UserProgress.init now ∧
    load_user_progress .malformed now = UserProgress.init now ∧
    (UserProgress.init now).help_tickets = 3 ∧
    (UserProgress.init now).tutorial_tickets = 2 := by
  exact ⟨rfl, rfl, rfl, rfl, rfl, rfl⟩

/-- Claim C5: for every `UserProgress` state and non-negative amount,
`add_xp` increases `xp` by the amount, then sets `level` to
`floor(new_xp/100) + 1` and returns `true` exactly when that value exceeds
the prior level, and otherwise leaves `level` unchanged and returns
`false`; `level` never decreases in this operation. -/
theorem C5_add_xp_leveling (p : UserProgress) (a : Int) (ha : 0 ≤ a) :
    (p.add_xp a).1.xp = p.xp + a ∧
    (if p.level < (p.xp + a).fdiv 100 + 1 then
       (p.add_xp a).1.level = (p.xp + a).fdiv 100 + 1 ∧ (p.add_xp a).2 = true
     else
       (p.add_xp a).1.level = p.level ∧ (p.add_xp a).2 = false) ∧
    p.level ≤ (p.add_xp a).1.level := by
  by_cases h : p.level < (p.xp + a).fdiv 100 + 1
  · simp [UserProgress.add_xp, h, le_of_lt h]
  · simp [UserProgress.add_xp, h]

/-- Witness for C5 at a concrete state and amount. -/
theorem C5_add_xp_leveling_witness :
    ((UserProgress.init "t0").add_xp 250).1.xp = 250 ∧
    ((UserProgress.init "t0").add_xp 250).1.level = 3 ∧
    ((UserProgress.init "t0").add_xp 250).2 = true := by
  have h := C5_add_xp_leveling (UserProgress.init "t0") 250 (by decide)
  have hc : (UserProgress.init "t0").level <
      ((UserProgress.init "t0").xp + 250).fdiv 100 + 1 := by decide
  refine ⟨h.1, ?_, ?_⟩
  · have := (if_pos hc ▸ h.2.1 :)
    exact this.1
  · have := (if_pos hc ▸ h.2.1 :)
    exact this.2

/-- Claim C6: the guarded complete operation fails with a state-conflict
error when the mission is already completed or failed, leaving the mission
unchanged; on an active mission it sets `completed` and stamps the
completion time, and a second complete on the result fails. -/
theorem C6_complete_state_conflict (m : Mission) (t1 t2 : String) :
    (m.completed = true ∨ m.failed = true →
      completeMissionGuarded m t1 = .error .alreadyCompletedOrFailed) ∧
    (m.completed = false → m.failed = false →
      completeMissionGuarded m t1 =
        .ok { m with completed := true, completed_at := some t1 } ∧
      completeMissionGuarded { m with completed := true, completed_at := some t1 } t2 =
        .error .alreadyCompletedOrFailed) := by
  refine ⟨fun h => ?_, fun h1 h2 => ⟨?_, ?_⟩⟩
  · unfold completeMissionGuarded
    rcases h with h | h <;> rw [if_neg] <;> simp [h]
  · unfold completeMissionGuarded
    rw [if_pos ⟨h1, h2⟩]
    rfl
  · unfold completeMissionGuarded
    rw [if_neg]
    simp

/-- Witness for C6 at a concrete active mission. -/
theorem C6_complete_state_conflict_witness :
    completeMissionGuarded
        ⟨"m1", "Build parser", "desc", "Easy", "none", 50, none, "t0",
         false, none, false, none⟩ "t1" =
      .ok ⟨"m1", "Build parser", "desc", "Easy", "none", 50, none, "t0",
           true, some "t1", false, none⟩ ∧
    completeMissionGuarded
        ⟨"m1", "Build parser", "desc", "Easy", "none", 50, none, "t0",
         true, some "t1", false, none⟩ "t2" =
      .error .alreadyCompletedOrFailed := by
  have h := (C6_complete_state_conflict
    ⟨"m1", "Build parser", "desc", "Easy", "none", 50, none, "t0",
     false, none, false, none⟩ "t1" "t2").2 rfl rfl
  exact h

/-- Counterexample to claim C7 as stated: the text `" "` is non-empty, yet
the guarded clear flow rejects it (the GUI strips the widget text before
the emptiness check), so "for non-empty text it sets cleared=true" fails. -/
theorem C7_clear_validation_cex :
    saveInsightGuarded ⟨"d1", "Help", "stuck on parsing", "t0", false, none, none⟩
        " " "t1" = .error .emptyInsight ∧ (" " : String) ≠ "" := by
  exact ⟨rfl, by decide⟩

/-- Claim C7 as amended: the guarded clear flow strips the supplied text;
it fails with a `ValidationError` when the stripped text is empty (so also
on whitespace-only input), mutating nothing; otherwise it sets
`cleared := true`, stores the stripped text, and stamps the cleared
timestamp. -/
theorem C7_clear_validation (d : InsightDebt) (raw now : String) :
    (pyStrip raw = "" → saveInsightGuarded d raw now = .error .emptyInsight) ∧
    (pyStrip raw ≠ "" → saveInsightGuarded d raw now =
      .ok { d with
            cleared := true, insight_entry := some (pyStrip raw),
            cleared_at := some now }) := by
  constructor
  · intro h
    unfold saveInsightGuarded
    rw [if_pos h]
  · intro h
    unfold saveInsightGuarded
    rw [if_neg h]
    rfl

/-- Witness for C7 at a concrete debt and entry text. -/
theorem C7_clear_validation_witness :
    saveInsightGuarded ⟨"d1", "Help", "stuck on parsing", "t0", false, none, none⟩
        "  learned recursion  " "t9" =
      .ok ⟨"d1", "Help", "stuck on parsing", "t0", true,
           some "learned recursion", some "t9"⟩ := by
  have h := (C7_clear_validation
    ⟨"d1", "Help", "stuck on parsing", "t0", false, none, none⟩
    "  learned recursion  " "t9").2 (by decide)
  exact h.trans (by rfl)

/-- Claim C4: `apply_punishment "lose help ticket"` on a state with
`help_tickets = 0` and `tutorial_tickets = 2` decrements
`tutorial_tickets` by 1 (the fallback) and returns exactly one effect
entry. -/
theorem C4_fallback_tutorial :
    (⟨0, 0, 2, "t0", 1, []⟩ : UserProgress).apply_punishment
        (some "lose help ticket") =
      (⟨0, 0, 1, "t0", 1, []⟩, ["Lost 1 tutorial ticket"]) := by
  rfl

/-- Counterexample to claim C3 as stated: the text `"lose help ticket"`
does mention the specific type name `"help"`, yet on a state with
`help_tickets = 0` the non-specific fallback fires and decrements the
tutorial counter, so "the fallback happens only when neither specific type
name is mentioned" fails (the code gates the fallback on
`tickets_lost == 0`, not on the absence of a mention). -/
theorem C3_ticket_fallback_cex :
    containsSub (pyLower "lose help ticket") "help" = true ∧
    ((⟨9, 0, 2, "t0", 1, []⟩ : UserProgress).apply_punishment
        (some "lose help ticket")).2 = ["Lost 1 tutorial ticket"] ∧
    ((⟨9, 0, 2, "t0", 1, []⟩ : UserProgress).apply_punishment
        (some "lose help ticket")).1.tutorial_tickets = 1 := by
  exact ⟨by decide, by decide, by decide⟩

/-- Claim C3 as amended: for every punishment text containing `"ticket"`,
each specific type name found in the text decrements its counter by 1 only
when that counter is positive, a requested type whose counter is 0 records
no specific effect, and the non-specific fallback decrement (help first if
available, else tutorial) happens exactly when no specific decrement
occurred — each mentioned type was at 0, or no type was mentioned — and at
least one counter is positive. -/
theorem C3_ticket_rule (p : UserProgress) (t : String)
    (hT : containsSub (pyLower t) "ticket" = true) :
    (p.apply_punishment (some t)).1.help_tickets =
      (if (containsSub (pyLower t) "help" = true ∧ 0 < p.help_tickets) ∨
          (¬(containsSub (pyLower t) "help" = true ∧ 0 < p.help_tickets) ∧
           ¬(containsSub (pyLower t) "tutorial" = true ∧ 0 < p.tutorial_tickets) ∧
           0 < p.help_tickets)
       then p.help_tickets - 1 else p.help_tickets) ∧
    (p.apply_punishment (some t)).1.tutorial_tickets =
      (if (containsSub (pyLower t) "tutorial" = true ∧ 0 < p.tutorial_tickets) ∨
          (¬(containsSub (pyLower t) "help" = true ∧ 0 < p.help_tickets) ∧
           ¬(containsSub (pyLower t) "tutorial" = true ∧ 0 < p.tutorial_tickets) ∧
           ¬(0 < p.help_tickets) ∧ 0 < p.tutorial_tickets)
       then p.tutorial_tickets - 1 else p.tutorial_tickets) ∧
    (p.ticketRule (pyLower t)).2 =
      (if containsSub (pyLower t) "help" = true ∧ 0 < p.help_tickets
       then ["Lost 1 help ticket"] else []) ++
      (if containsSub (pyLower t) "tutorial" = true ∧ 0 < p.tutorial_tickets
       then ["Lost 1 tutorial ticket"] else []) ++
      (if ¬(containsSub (pyLower t) "help" = true ∧ 0 < p.help_tickets) ∧
          ¬(containsSub (pyLower t) "tutorial" = true ∧ 0 < p.tutorial_tickets)
       then (if 0 < p.help_tickets then ["Lost 1 help ticket"]
             else if 0 < p.tutorial_tickets then ["Lost 1 tutorial ticket"]
             else [])
       else []) := by
  have hne : t ≠ "" := by
    rintro rfl
    revert hT
    decide
  have hxp := xpRule_preserves_tickets p (pyLower t)
  have happ := apply_punishment_tickets p t hne
  have hchar := ticketRule_characterization (p.xpRule (pyLower t)).1 (pyLower t) hT
  rw [hxp.1, hxp.2] at hchar
  exact ⟨happ.1.trans hchar.1, happ.2.trans hchar.2.1,
    (ticketRule_characterization p (pyLower t) hT).2.2⟩

/-- Witness for C3 at a concrete state and text with no specific mention. -/
theorem C3_ticket_rule_witness :
    ((⟨0, 3, 2, "t0", 1, []⟩ : UserProgress).apply_punishment
        (some "lose a ticket")).1.help_tickets = 2 ∧
    ((⟨0, 3, 2, "t0", 1, []⟩ : UserProgress).apply_punishment
        (some "lose a ticket")).1.tutorial_tickets = 2 := by
  have h := C3_ticket_rule ⟨0, 3, 2, "t0", 1, []⟩ "lose a ticket" (by decide)
  exact ⟨h.1.trans (by decide), h.2.1.trans (by decide)⟩

/-- Claim C10: from any state with non-negative xp and ticket counters and
level at least 1, every operation — `apply_punishment` with any text,
`use_help_ticket`, `use_tutorial_ticket`, `reset_tickets`, and `add_xp`
with a non-negative amount — preserves all four bounds. -/
theorem C10_invariants (p : UserProgress) (hp : GoodState p) :
    (∀ t : Option String, GoodState (p.apply_punishment t).1) ∧
    GoodState p.use_help_ticket.1 ∧
    GoodState p.use_tutorial_ticket.1 ∧
    (∀ now : String, GoodState (p.reset_tickets now)) ∧
    (∀ a : Int, 0 ≤ a → GoodState (p.add_xp a).1) := by
  obtain ⟨h1, h2, h3, h4⟩ := hp
  refine ⟨fun t => apply_punishment_goodState p t ⟨h1, h2, h3, h4⟩,
    ?_, ?_,
    fun now => ⟨h1, (by norm_num : (0 : Int) ≤ 3), (by norm_num : (0 : Int) ≤ 2), h4⟩,
    fun a ha => ?_⟩
  · simp only [UserProgress.use_help_ticket]
    split_ifs with h
    · exact ⟨h1, (by omega : (0 : Int) ≤ p.help_tickets - 1), h3, h4⟩
    · exact ⟨h1, h2, h3, h4⟩
  · simp only [UserProgress.use_tutorial_ticket]
    split_ifs with h
    · exact ⟨h1, h2, (by omega : (0 : Int) ≤ p.tutorial_tickets - 1), h4⟩
    · exact ⟨h1, h2, h3, h4⟩
  · simp only [UserProgress.add_xp]
    have hf := fdiv_hundred_nonneg (p.xp + a) (by omega)
    split_ifs with h
    · exact ⟨(by omega : (0 : Int) ≤ p.xp + a), h2, h3,
        (by omega : (1 : Int) ≤ (p.xp + a).fdiv 100 + 1)⟩
    · exact ⟨(by omega : (0 : Int) ≤ p.xp + a), h2, h3, h4⟩

/-- Witness for C10 at the fresh starting state. -/
theorem C10_invariants_witness :
    GoodState ((UserProgress.init "t0").apply_punishment
      (some "lose 20 xp and a help ticket")).1 ∧
    GoodState ((UserProgress.init "t0").add_xp 50).1 := by
  have h := C10_invariants (UserProgress.init "t0")
    ⟨by decide, by decide, by decide, by decide⟩
  exact ⟨h.1 (some "lose 20 xp and a help ticket"), h.2.2.2.2 50 (by decide)⟩

end SoloCraft
